import Mathlib

/-!
Verification of the LinkedIn profile scraper
(src/linkedin-scraper/linkedin-scraper-auto.py).

The development shallowly embeds the parts of the script that the
specification's testable properties talk about:

* the rendered page (a BeautifulSoup document) as a tree of elements,
* the per-field extractors `_extract_name`, `_extract_headline`,
  `_extract_location`, `_extract_about`, `_extract_experience`,
  `_extract_education`, `_extract_skills`,
* the per-profile scrape `scrape_profile` and the batch loop
  `scrape_multiple_profiles` (navigation and page rendering are an
  environment `String → Except String (List Dom)`; an exception raised
  while loading a page is the `Except.error` case),
* cookie persistence `save_cookies` / `load_cookies` (the pickle module's
  structural serialization of Python values is modelled by `PValue`),
* the scroll loop `_scroll_slowly` (the randomized scroll distances and
  the re-measured document heights are oracle functions `Nat → Nat`).
-/

/-- A rendered DOM element: tag name, CSS class list, optional id
attribute, direct text, and child elements in document order. -/
inductive Dom where
  | elem (tag : String) (classes : List String) (idAttr : Option String)
      (text : String) (children : List Dom)
deriving Repr

def Dom.tag : Dom → String
  | .elem t _ _ _ _ => t

def Dom.classes : Dom → List String
  | .elem _ c _ _ _ => c

def Dom.idAttr : Dom → Option String
  | .elem _ _ i _ _ => i

def Dom.children : Dom → List Dom
  | .elem _ _ _ _ cs => cs

mutual

/-- All elements of a subtree in document (preorder) order, the root
element included. -/
def Dom.nodes : Dom → List Dom
  | .elem t c i s cs => .elem t c i s cs :: nodesList cs

/-- All elements of a forest in document (preorder) order. -/
def nodesList : List Dom → List Dom
  | [] => []
  | d :: ds => Dom.nodes d ++ nodesList ds

end

mutual

/-- BeautifulSoup `get_text()`: the concatenated text of a subtree. -/
def Dom.getText : Dom → String
  | .elem _ _ _ s cs => s ++ getTextList cs

def getTextList : List Dom → String
  | [] => ""
  | d :: ds => Dom.getText d ++ getTextList ds

end

def infixAux (needle : List Char) : List Char → Bool
  | [] => needle.isEmpty
  | c :: cs => needle.isPrefixOf (c :: cs) || infixAux needle cs

/-- Boolean substring containment, modelling the Python expression
`sub in x` on strings. -/
def containsSub (sub x : String) : Bool :=
  sub.isEmpty || infixAux sub.toList x.toList

/-- Python `str.strip()`: remove whitespace from both ends. -/
def strStrip (s : String) : String :=
  ⟨((s.toList.dropWhile Char.isWhitespace).reverse.dropWhile Char.isWhitespace).reverse⟩

/-- BeautifulSoup class matcher for `class_=lambda x: x and sub in x`:
some CSS class of the element contains `sub` as a substring. -/
def classAnyContains (sub : String) (d : Dom) : Bool :=
  d.classes.any (fun c => containsSub sub c)

/-- BeautifulSoup class matcher for `class_="cls"`: some CSS class of the
element equals `cls`. -/
def classAnyEq (cls : String) (d : Dom) : Bool :=
  d.classes.any (fun c => c == cls)

/-- BeautifulSoup attrs matcher for `{"id": lambda x: x and sub in x}`:
the element has an id attribute containing `sub`. -/
def idContains (sub : String) (d : Dom) : Bool :=
  match d.idAttr with
  | some s => containsSub sub s
  | none => false

/-- `soup.find(...)`: first matching element of the document in document
order. -/
def docFind (p : Dom → Bool) (soup : List Dom) : Option Dom :=
  (nodesList soup).find? p

/-- `tag.find(...)`: first matching descendant of an element. -/
def Dom.findIn (p : Dom → Bool) (d : Dom) : Option Dom :=
  (nodesList d.children).find? p

/-- `tag.find_all(...)`: all matching descendants of an element in
document order. -/
def Dom.findAllIn (p : Dom → Bool) (d : Dom) : List Dom :=
  (nodesList d.children).filter p

def isNameSel1 (d : Dom) : Bool :=
  d.tag == "h1" && classAnyContains "text-heading-xlarge" d

def isNameSel2 (d : Dom) : Bool :=
  d.tag == "h1" && classAnyEq "pv-text-details__left-panel" d

def isHeadlineSel (d : Dom) : Bool :=
  d.tag == "div" && classAnyContains "text-body-medium" d

def isLocationSel (d : Dom) : Bool :=
  d.tag == "span" && classAnyContains "text-body-small" d

def isAboutSectionSel (d : Dom) : Bool :=
  d.tag == "div" && classAnyContains "pv-about" d

def isAboutTextSel (d : Dom) : Bool :=
  d.tag == "div" && classAnyContains "inline-show-more-text" d

def isExperienceSectionSel (d : Dom) : Bool :=
  d.tag == "section" && idContains "experience" d

def isEducationSectionSel (d : Dom) : Bool :=
  d.tag == "section" && idContains "education" d

def isSkillsSectionSel (d : Dom) : Bool :=
  d.tag == "section" && idContains "skills" d

def isCardSel (d : Dom) : Bool :=
  d.tag == "li" && classAnyContains "profile-section-card" d

def isMr1DivSel (d : Dom) : Bool :=
  d.tag == "div" && classAnyContains "mr1" d

def isT14SpanSel (d : Dom) : Bool :=
  d.tag == "span" && classAnyContains "t-14" d

/-- `_extract_name`: h1 with a class containing "text-heading-xlarge",
else h1 with class "pv-text-details__left-panel", else "N/A". -/
def extract_name (soup : List Dom) : String :=
  match docFind isNameSel1 soup with
  | some e => strStrip e.getText
  | none =>
    match docFind isNameSel2 soup with
    | some e => strStrip e.getText
    | none => "N/A"

/-- `_extract_headline`: div with a class containing "text-body-medium",
else "N/A". -/
def extract_headline (soup : List Dom) : String :=
  match docFind isHeadlineSel soup with
  | some e => strStrip e.getText
  | none => "N/A"

/-- `_extract_location`: span with a class containing "text-body-small",
else "N/A". -/
def extract_location (soup : List Dom) : String :=
  match docFind isLocationSel soup with
  | some e => strStrip e.getText
  | none => "N/A"

/-- `_extract_about`: div with a class containing "pv-about", then inside
it a div with a class containing "inline-show-more-text", else "N/A". -/
def extract_about (soup : List Dom) : String :=
  match docFind isAboutSectionSel soup with
  | some sec =>
    match sec.findIn isAboutTextSel with
    | some e => strStrip e.getText
    | none => "N/A"
  | none => "N/A"

structure ExpItem where
  title : String
  company : String
deriving Repr, DecidableEq

structure EduItem where
  school : String
  degree : String
deriving Repr, DecidableEq

def expOfItem (item : Dom) : ExpItem :=
  { title :=
      match item.findIn isMr1DivSel with
      | some t => strStrip t.getText
      | none => "N/A"
    company :=
      match item.findIn isT14SpanSel with
      | some c => strStrip c.getText
      | none => "N/A" }

def eduOfItem (item : Dom) : EduItem :=
  { school :=
      match item.findIn isMr1DivSel with
      | some t => strStrip t.getText
      | none => "N/A"
    degree :=
      match item.findIn isT14SpanSel with
      | some c => strStrip c.getText
      | none => "N/A" }

/-- `_extract_experience`: section with id containing "experience", its
li cards, first 5 only. -/
def extract_experience (soup : List Dom) : List ExpItem :=
  match docFind isExperienceSectionSel soup with
  | some sec => ((sec.findAllIn isCardSel).take 5).map expOfItem
  | none => []

/-- `_extract_education`: section with id containing "education", its li
cards, first 3 only. -/
def extract_education (soup : List Dom) : List EduItem :=
  match docFind isEducationSectionSel soup with
  | some sec => ((sec.findAllIn isCardSel).take 3).map eduOfItem
  | none => []

/-- `_extract_skills`: section with id containing "skills", its "mr1"
divs, first 10 only, stripped, empty strings dropped. -/
def extract_skills (soup : List Dom) : List String :=
  match docFind isSkillsSectionSel soup with
  | some sec =>
    (((sec.findAllIn isMr1DivSel).take 10).map (fun d => strStrip d.getText)).filter
      (fun s => !s.isEmpty)
  | none => []

/-- The dictionary built by `scrape_profile`.  Success records populate
every field but `error`; the except branch populates only `url` and
`error`.  An absent dictionary key is `none`. -/
structure ProfileRecord where
  url : String
  name : Option String
  headline : Option String
  location : Option String
  about : Option String
  experience : Option (List ExpItem)
  education : Option (List EduItem)
  skills : Option (List String)
  error : Option String
deriving Repr, DecidableEq

/-- `scrape_profile`: navigate, scroll, parse, extract.  The environment
maps a profile URL to the parsed page, or to the message of the exception
raised while loading it (the whole body runs inside one try/except). -/
def scrape_profile (env : String → Except String (List Dom))
    (profile_url : String) : ProfileRecord :=
  match env profile_url with
  | .ok soup =>
    { url := profile_url
      name := some (extract_name soup)
      headline := some (extract_headline soup)
      location := some (extract_location soup)
      about := some (extract_about soup)
      experience := some (extract_experience soup)
      education := some (extract_education soup)
      skills := some (extract_skills soup)
      error := none }
  | .error e =>
    { url := profile_url
      name := none
      headline := none
      location := none
      about := none
      experience := none
      education := none
      skills := none
      error := some e }

/-- The Python test `'error' in profile_data`. -/
def hasError (r : ProfileRecord) : Bool := r.error.isSome

/-- The accumulated output of `scrape_multiple_profiles`: the
`all_profiles` list and the `successful` / `failed` counters. -/
structure BatchResult where
  profiles : List ProfileRecord
  successful : Nat
  failed : Nat
deriving Repr, DecidableEq

/-- The `for i, url in enumerate(profile_urls, 1)` loop of
`scrape_multiple_profiles`: scrape each URL in order, append its record,
and bump `successful` or `failed` according to
`'error' in profile_data`.  (The pacing sleep and the CSV write touch no
part of the result.)  The summary block that runs after this loop is
modelled by `scrape_multiple_profiles_full`. -/
def scrape_multiple_profiles (env : String → Except String (List Dom)) :
    List String → BatchResult
  | [] => ⟨[], 0, 0⟩
  | u :: rest =>
    let r := scrape_profile env u
    let b := scrape_multiple_profiles env rest
    ⟨r :: b.profiles,
      (if hasError r then 0 else 1) + b.successful,
      (if hasError r then 1 else 0) + b.failed⟩

/-- The complete `scrape_multiple_profiles` call.  After the loop and the
CSV save, the summary print evaluates
`successful / len(profile_urls) * 100`: on an empty URL list this raises
ZeroDivisionError before the return statement is reached, so the call
returns no batch result at all (`none`); on a nonempty list it prints and
returns the accumulated batch. -/
def scrape_multiple_profiles_full (env : String → Except String (List Dom)) :
    List String → Option BatchResult
  | [] => none
  | u :: rest => some (scrape_multiple_profiles env (u :: rest))

/-- A Selenium cookie as the spec's Session Cookie Set element:
{name, value, domain, path, expiry?}. -/
structure Cookie where
  name : String
  value : String
  domain : String
  path : String
  expiry : Option Int
deriving Repr, DecidableEq

/-- A picklable Python value: pickle serializes the object structurally
and `pickle.load` restores the same structure. -/
inductive PValue where
  | pstr (s : String)
  | pint (n : Int)
  | pnone
  | plist (vs : List PValue)
deriving Repr

def pickleCookie (c : Cookie) : PValue :=
  .plist [.pstr c.name, .pstr c.value, .pstr c.domain, .pstr c.path,
    match c.expiry with
    | some n => .pint n
    | none => .pnone]

def unpickleCookie : PValue → Option Cookie
  | .plist [.pstr n, .pstr v, .pstr d, .pstr p, .pint e] => some ⟨n, v, d, p, some e⟩
  | .plist [.pstr n, .pstr v, .pstr d, .pstr p, .pnone] => some ⟨n, v, d, p, none⟩
  | _ => none

/-- `pickle.dump(driver.get_cookies(), f)`. -/
def pickleDump (cs : List Cookie) : PValue := .plist (cs.map pickleCookie)

def unpickleCookieList : List PValue → Option (List Cookie)
  | [] => some []
  | v :: vs =>
    match unpickleCookie v, unpickleCookieList vs with
    | some c, some cs => some (c :: cs)
    | _, _ => none

/-- `pickle.load(f)` on the cookie file: fails (raises) on content that is
not a cookie list. -/
def pickleLoad : PValue → Option (List Cookie)
  | .plist vs => unpickleCookieList vs
  | _ => none

/-- `save_cookies`: write the pickled cookie list to the cookie file.
`writeOk` is whether the file write raises; the except branch swallows the
exception, leaves the file as it was and reports failure.  The Bool result
is whether the save succeeded; the function itself never raises. -/
def save_cookies (writeOk : Bool) (cs : List Cookie) (file : Option PValue) :
    Option PValue × Bool :=
  if writeOk then (some (pickleDump cs), true) else (file, false)

/-- `load_cookies`: `False` when the cookie file does not exist (`none`),
`False` when unpickling raises (content not a cookie list — the except
branch swallows the exception), else `True` together with the cookies
injected into the driver.  The function itself never raises. -/
def load_cookies : Option PValue → Bool × List Cookie
  | none => (false, [])
  | some v =>
    match pickleLoad v with
    | some cs => (true, cs)
    | none => (false, [])

/-- One pass of the `while current_position < total_height` loop of
`_scroll_slowly`: advance by `steps k` (the value of
`random.randint(200, 400)` at iteration k), re-measure the document
height, and stop once the position has reached the re-measured height.
`fuel` bounds the number of iterations we unfold; `none` means the loop
was still running when the fuel ran out. -/
def scrollAux (steps height : Nat → Nat) (k pos total fuel : Nat) : Option Nat :=
  if pos < total then
    match fuel with
    | 0 => none
    | f + 1 =>
      let pos2 := pos + steps k
      let total2 := height (k + 1)
      if total2 ≤ pos2 then some pos2
      else scrollAux steps height (k + 1) pos2 total2 f
  else some pos

/-- `_scroll_slowly`: start at position 0 against the initially measured
document height. -/
def scroll_slowly (steps height : Nat → Nat) (fuel : Nat) : Option Nat :=
  scrollAux steps height 0 0 (height 0) fuel

/-- The `LinkedInScraper` instance state set by `__init__`. -/
structure LinkedInScraper where
  email : String
  password : String
  use_proxy : Bool
  proxy : Option String
  cookies_file : String
deriving Repr, DecidableEq

/-- `_extract_name` as the instance method: the body reads only `soup`,
no instance state. -/
def extract_name_m (_self : LinkedInScraper) (soup : List Dom) : String :=
  extract_name soup

def extract_headline_m (_self : LinkedInScraper) (soup : List Dom) : String :=
  extract_headline soup

def extract_location_m (_self : LinkedInScraper) (soup : List Dom) : String :=
  extract_location soup

def extract_about_m (_self : LinkedInScraper) (soup : List Dom) : String :=
  extract_about soup

def extract_experience_m (_self : LinkedInScraper) (soup : List Dom) : List ExpItem :=
  extract_experience soup

def extract_education_m (_self : LinkedInScraper) (soup : List Dom) : List EduItem :=
  extract_education soup

def extract_skills_m (_self : LinkedInScraper) (soup : List Dom) : List String :=
  extract_skills soup

/-- All field extractions of one DOM snapshot bundled together. -/
def extractAllFields (soup : List Dom) :
    String × String × String × String × List ExpItem × List EduItem × List String :=
  (extract_name soup, extract_headline soup, extract_location soup, extract_about soup,
   extract_experience soup, extract_education soup, extract_skills soup)

/-- All field extractions, run through the instance methods. -/
def extractAllFieldsMethod (s : LinkedInScraper) (soup : List Dom) :
    String × String × String × String × List ExpItem × List EduItem × List String :=
  (extract_name_m s soup, extract_headline_m s soup, extract_location_m s soup,
   extract_about_m s soup, extract_experience_m s soup, extract_education_m s soup,
   extract_skills_m s soup)

lemma scrape_profile_url (env : String → Except String (List Dom)) (u : String) :
    (scrape_profile env u).url = u := by
  cases h : env u <;> simp [scrape_profile, h]

lemma scrape_multiple_profiles_profiles (env : String → Except String (List Dom))
    (urls : List String) :
    (scrape_multiple_profiles env urls).profiles = urls.map (scrape_profile env) := by
  induction urls with
  | nil => rfl
  | cons u rest ih => simp [scrape_multiple_profiles, ih]

/-- Claim C1 (amended: restricted to nonempty input lists, because on the
empty list the final success-rate print divides by `len(profile_urls)` and
the call raises ZeroDivisionError instead of returning): for every
nonempty input list of profile URLs, `scrape_multiple_profiles` returns a
batch result containing exactly one Profile Record per input URL, in input
order, with no URL skipped: the record list is exactly the map of
`scrape_profile` over the URLs, its length equals the input length, and
the record at every position carries that position's URL. -/
theorem batch_result_one_record_per_url (env : String → Except String (List Dom))
    (urls : List String) (hne : urls ≠ []) :
    ∃ b, scrape_multiple_profiles_full env urls = some b ∧
      b.profiles = urls.map (scrape_profile env) ∧
      b.profiles.length = urls.length ∧
      ∀ i : Nat, (b.profiles[i]?).map ProfileRecord.url = urls[i]? := by
  refine ⟨scrape_multiple_profiles env urls, ?_,
    scrape_multiple_profiles_profiles env urls, ?_, ?_⟩
  · cases urls with
    | nil => exact absurd rfl hne
    | cons u rest => rfl
  · rw [scrape_multiple_profiles_profiles env urls, List.length_map]
  · intro i
    rw [scrape_multiple_profiles_profiles env urls, List.getElem?_map, Option.map_map]
    have hcomp : (ProfileRecord.url ∘ scrape_profile env) = fun u => u := by
      funext u
      exact scrape_profile_url env u
    rw [hcomp]
    cases urls[i]? <;> rfl

/-- Claim C4: whatever the DOM snapshot and however many matching nodes it
has, the extracted experience list has at most 5 entries, the education
list at most 3, and the skills list at most 10. -/
theorem list_field_caps_enforced (soup : List Dom) :
    (extract_experience soup).length ≤ 5 ∧
    (extract_education soup).length ≤ 3 ∧
    (extract_skills soup).length ≤ 10 := by
  refine ⟨?_, ?_, ?_⟩
  · unfold extract_experience
    cases h : docFind isExperienceSectionSel soup with
    | none => simp
    | some sec =>
      simp only [List.length_map, List.length_take]
      exact min_le_left _ _
  · unfold extract_education
    cases h : docFind isEducationSectionSel soup with
    | none => simp
    | some sec =>
      simp only [List.length_map, List.length_take]
      exact min_le_left _ _
  · unfold extract_skills
    cases h : docFind isSkillsSectionSel soup with
    | none => simp
    | some sec =>
      calc ((((sec.findAllIn isMr1DivSel).take 10).map (fun d => strStrip d.getText)).filter
              (fun s => !s.isEmpty)).length
          ≤ (((sec.findAllIn isMr1DivSel).take 10).map (fun d => strStrip d.getText)).length :=
            List.length_filter_le _ _
        _ ≤ 10 := by
            simp only [List.length_map, List.length_take]
            exact min_le_left _ _

/-- Claim C6: the Field Extractor is a pure, deterministic function of the
DOM snapshot: the extraction methods read no instance state (two scraper
states give identical results) and re-running them on the same snapshot
yields identical results. -/
theorem field_extractor_pure_deterministic (s₁ s₂ : LinkedInScraper) (soup : List Dom) :
    extractAllFieldsMethod s₁ soup = extractAllFieldsMethod s₂ soup ∧
    extractAllFieldsMethod s₁ soup = (extractAllFields soup) ∧
    extractAllFields soup = extractAllFields soup :=
  ⟨rfl, rfl, rfl⟩

lemma unpickle_pickle_cookie (c : Cookie) : unpickleCookie (pickleCookie c) = some c := by
  cases c with
  | mk n v d p e => cases e <;> rfl

lemma unpickle_pickle_list (cs : List Cookie) :
    unpickleCookieList (cs.map pickleCookie) = some cs := by
  induction cs with
  | nil => rfl
  | cons c cs ih => simp [unpickleCookieList, unpickle_pickle_cookie, ih]

/-- Claim C7: saving a well-formed Session Cookie Set and then loading it
restores the same cookie set: `load_cookies` on the file written by a
successful `save_cookies` reports success and returns exactly the saved
cookies, so the fields {name, value, domain, path, expiry} round-trip
losslessly. -/
theorem cookie_round_trip (cs : List Cookie) (file : Option PValue) :
    load_cookies (save_cookies true cs file).1 = (true, cs) := by
  simp [save_cookies, load_cookies, pickleLoad, pickleDump, unpickle_pickle_list]

/-- Claim C10: the error branch of `scrape_profile` returns a record whose
`url` field equals the input profile URL, alongside the `error` field, so
failed units of work stay attributable to their input URL. -/
theorem error_record_carries_url (env : String → Except String (List Dom))
    (url e : String) (h : env url = Except.error e) :
    (scrape_profile env url).url = url ∧ (scrape_profile env url).error = some e := by
  simp [scrape_profile, h]

def envBoom : String → Except String (List Dom) := fun _ => Except.error "boom"

theorem error_record_carries_url_witness :
    (scrape_profile envBoom "https://example.com/in/x").url = "https://example.com/in/x" ∧
    (scrape_profile envBoom "https://example.com/in/x").error = some "boom" :=
  error_record_carries_url envBoom "https://example.com/in/x" "boom" rfl

/-- Claim C2: a navigation failure while processing one URL produces an
error-tagged record for that URL only and does not abort the batch: for a
batch of 3 URLs whose 2nd navigation raises, the batch result has 3
records, only record 1 has `error` set, and the derived counts are
successful = 2 and failed = 1. -/
theorem batch_navigation_failure_isolated (env : String → Except String (List Dom))
    (u₁ u₂ u₃ : String) (d₁ d₃ : List Dom) (e : String)
    (h₁ : env u₁ = Except.ok d₁) (h₂ : env u₂ = Except.error e)
    (h₃ : env u₃ = Except.ok d₃) :
    (scrape_multiple_profiles env [u₁, u₂, u₃]).profiles.length = 3 ∧
    (scrape_multiple_profiles env [u₁, u₂, u₃]).profiles.map ProfileRecord.error
      = [none, some e, none] ∧
    (scrape_multiple_profiles env [u₁, u₂, u₃]).successful = 2 ∧
    (scrape_multiple_profiles env [u₁, u₂, u₃]).failed = 1 := by
  refine ⟨?_, ?_, ?_, ?_⟩ <;>
    simp [scrape_multiple_profiles, scrape_profile, h₁, h₂, h₃, hasError]

def envSecondFails : String → Except String (List Dom) := fun u =>
  if u = "u2" then Except.error "timeout" else Except.ok []

theorem batch_navigation_failure_isolated_witness :
    (scrape_multiple_profiles envSecondFails ["u1", "u2", "u3"]).profiles.length = 3 ∧
    (scrape_multiple_profiles envSecondFails ["u1", "u2", "u3"]).profiles.map
      ProfileRecord.error = [none, some "timeout", none] ∧
    (scrape_multiple_profiles envSecondFails ["u1", "u2", "u3"]).successful = 2 ∧
    (scrape_multiple_profiles envSecondFails ["u1", "u2", "u3"]).failed = 1 :=
  batch_navigation_failure_isolated envSecondFails "u1" "u2" "u3" [] [] "timeout"
    (by simp [envSecondFails]) (by simp [envSecondFails]) (by simp [envSecondFails])

/-- Claim C8: the Session Store never raises on missing or corrupt
storage: `load_cookies` returns `False` when the cookie file is absent and
`False` when unpickling its content fails, and a failed `save_cookies` is
absorbed (it reports failure and leaves the file untouched instead of
propagating the exception). -/
theorem session_store_never_raises :
    load_cookies none = (false, []) ∧
    (∀ v : PValue, pickleLoad v = none → load_cookies (some v) = (false, [])) ∧
    (∀ (cs : List Cookie) (file : Option PValue), save_cookies false cs file = (file, false)) := by
  refine ⟨rfl, ?_, ?_⟩
  · intro v h
    simp [load_cookies, h]
  · intro cs file
    rfl

theorem session_store_never_raises_witness :
    load_cookies (some PValue.pnone) = (false, []) ∧ load_cookies none = (false, []) :=
  ⟨session_store_never_raises.2.1 PValue.pnone rfl, session_store_never_raises.1⟩

lemma scrollAux_terminates (steps height : Nat → Nat) (H : Nat)
    (h200 : ∀ i, 200 ≤ steps i) (hH : ∀ i, height i = H) :
    ∀ fuel k pos total, total = H → H ≤ pos + 200 * fuel →
      ∃ r, scrollAux steps height k pos total fuel = some r ∧ total ≤ r := by
  intro fuel
  induction fuel with
  | zero =>
    intro k pos total ht hb
    have hge : ¬ pos < total := by omega
    exact ⟨pos, by rw [scrollAux, if_neg hge], by omega⟩
  | succ f ih =>
    intro k pos total ht hb
    by_cases hlt : pos < total
    · have hs := h200 k
      have h2 : height (k + 1) = H := hH (k + 1)
      by_cases hdone : height (k + 1) ≤ pos + steps k
      · exact ⟨pos + steps k, by simp [scrollAux, hlt, hdone], by omega⟩
      · obtain ⟨r, hr, hler⟩ := ih (k + 1) (pos + steps k) (height (k + 1)) h2 (by omega)
        exact ⟨r, by simp [scrollAux, hlt, hdone, hr], by omega⟩
    · exact ⟨pos, by rw [scrollAux, if_neg hlt], by omega⟩

/-- Claim C9: under the precondition that the re-measured document height
stays fixed at `H` and that every randomized scroll step is at least 200,
the scroll loop of `_scroll_slowly` terminates — `H / 200 + 1` iterations
of fuel already suffice — and it stops only once the position has reached
or passed the measured height. -/
theorem scroll_loop_terminates (steps height : Nat → Nat) (H : Nat)
    (h200 : ∀ i, 200 ≤ steps i) (hH : ∀ i, height i = H) :
    ∃ r, scroll_slowly steps height (H / 200 + 1) = some r ∧ H ≤ r := by
  obtain ⟨r, hr, hler⟩ :=
    scrollAux_terminates steps height H h200 hH (H / 200 + 1) 0 0 (height 0) (hH 0) (by omega)
  refine ⟨r, ?_, ?_⟩
  · rw [scroll_slowly]
    exact hr
  · rw [hH 0] at hler
    exact hler

theorem scroll_loop_terminates_witness :
    ∃ r, scroll_slowly (fun _ => 200) (fun _ => 1000) (1000 / 200 + 1) = some r ∧ 1000 ≤ r :=
  scroll_loop_terminates (fun _ => 200) (fun _ => 1000) 1000
    (fun _ => Nat.le_refl 200) (fun _ => rfl)

lemma nodes_eq (d : Dom) : Dom.nodes d = d :: nodesList d.children := by
  cases d with
  | elem t c i s cs => simp [Dom.nodes, Dom.children]

mutual

theorem mem_nodes_trans : ∀ (c a b : Dom), a ∈ Dom.nodes b → b ∈ Dom.nodes c → a ∈ Dom.nodes c
  | .elem t cl i s cs, a, b, hab, hbc => by
    rw [Dom.nodes] at hbc ⊢
    rcases List.mem_cons.mp hbc with h | h
    · rw [h] at hab
      rw [Dom.nodes] at hab
      exact hab
    · exact List.mem_cons_of_mem _ (mem_nodesList_trans cs a b hab h)

theorem mem_nodesList_trans : ∀ (l : List Dom) (a b : Dom),
    a ∈ Dom.nodes b → b ∈ nodesList l → a ∈ nodesList l
  | [], a, b, _, hb => by
    rw [nodesList] at hb
    cases hb
  | d :: ds, a, b, hab, hb => by
    rw [nodesList] at hb ⊢
    rcases List.mem_append.mp hb with h | h
    · exact List.mem_append.mpr (Or.inl (mem_nodes_trans d a b hab h))
    · exact List.mem_append.mpr (Or.inr (mem_nodesList_trans ds a b hab h))

end

lemma docFind_mem {p : Dom → Bool} {soup : List Dom} {e : Dom}
    (h : docFind p soup = some e) : e ∈ nodesList soup := by
  rw [docFind] at h
  exact List.mem_of_find?_eq_some h

lemma findIn_mem {p : Dom → Bool} {d e : Dom} (h : Dom.findIn p d = some e) :
    e ∈ Dom.nodes d := by
  rw [Dom.findIn] at h
  rw [nodes_eq]
  exact List.mem_cons_of_mem _ (List.mem_of_find?_eq_some h)

/-- A core-field value is either text extracted from some element of the
snapshot (stripped) or the code's sentinel "N/A". -/
def extractedOrNA (v : String) (soup : List Dom) : Prop :=
  v = "N/A" ∨ ∃ d ∈ nodesList soup, v = strStrip d.getText

lemma extract_name_shape (soup : List Dom) : extractedOrNA (extract_name soup) soup := by
  unfold extractedOrNA
  cases h1 : docFind isNameSel1 soup with
  | some e => exact Or.inr ⟨e, docFind_mem h1, by simp [extract_name, h1]⟩
  | none =>
    cases h2 : docFind isNameSel2 soup with
    | some e => exact Or.inr ⟨e, docFind_mem h2, by simp [extract_name, h1, h2]⟩
    | none => exact Or.inl (by simp [extract_name, h1, h2])

lemma extract_headline_shape (soup : List Dom) :
    extractedOrNA (extract_headline soup) soup := by
  unfold extractedOrNA
  cases h : docFind isHeadlineSel soup with
  | some e => exact Or.inr ⟨e, docFind_mem h, by simp [extract_headline, h]⟩
  | none => exact Or.inl (by simp [extract_headline, h])

lemma extract_location_shape (soup : List Dom) :
    extractedOrNA (extract_location soup) soup := by
  unfold extractedOrNA
  cases h : docFind isLocationSel soup with
  | some e => exact Or.inr ⟨e, docFind_mem h, by simp [extract_location, h]⟩
  | none => exact Or.inl (by simp [extract_location, h])

lemma extract_about_shape (soup : List Dom) : extractedOrNA (extract_about soup) soup := by
  unfold extractedOrNA
  cases h1 : docFind isAboutSectionSel soup with
  | none => exact Or.inl (by simp [extract_about, h1])
  | some sec =>
    cases h2 : sec.findIn isAboutTextSel with
    | none => exact Or.inl (by simp [extract_about, h1, h2])
    | some e =>
      refine Or.inr ⟨e, ?_, by simp [extract_about, h1, h2]⟩
      exact mem_nodesList_trans soup e sec (findIn_mem h2) (docFind_mem h1)

/-- A present core field: the dictionary key is there and its value is
extracted text or "N/A". -/
def coreFieldOk (v : Option String) (soup : List Dom) : Prop :=
  ∃ s, v = some s ∧ extractedOrNA s soup

/-- Success shape of a Profile Record against the snapshot it came from:
all four core fields present with extracted-or-"N/A" values, all three
list fields present, and no `error` key. -/
def successShape (r : ProfileRecord) (soup : List Dom) : Prop :=
  coreFieldOk r.name soup ∧ coreFieldOk r.headline soup ∧
  coreFieldOk r.location soup ∧ coreFieldOk r.about soup ∧
  r.experience.isSome ∧ r.education.isSome ∧ r.skills.isSome ∧ r.error = none

/-- Error shape of a Profile Record: `error` present and no extracted
field present. -/
def errorShape (r : ProfileRecord) : Prop :=
  r.error.isSome ∧ r.name = none ∧ r.headline = none ∧ r.location = none ∧
  r.about = none ∧ r.experience = none ∧ r.education = none ∧ r.skills = none

/-- Claim C3 (amended: the code's core-field sentinel is "N/A", not
"unknown"): every record returned by `scrape_profile` satisfies exactly
one of the two shapes — either all core fields are present with extracted
or "N/A" values and the list fields are present, or `error` is set and no
extracted field is present. -/
theorem profile_record_shape_dichotomy (env : String → Except String (List Dom))
    (url : String) :
    (∃ soup, env url = Except.ok soup ∧ successShape (scrape_profile env url) soup ∧
      ¬ errorShape (scrape_profile env url)) ∨
    (errorShape (scrape_profile env url) ∧
      ∀ soup, ¬ successShape (scrape_profile env url) soup) := by
  cases h : env url with
  | ok soup =>
    left
    refine ⟨soup, rfl, ?_, ?_⟩
    · exact ⟨⟨extract_name soup, by simp [scrape_profile, h], extract_name_shape soup⟩,
        ⟨extract_headline soup, by simp [scrape_profile, h], extract_headline_shape soup⟩,
        ⟨extract_location soup, by simp [scrape_profile, h], extract_location_shape soup⟩,
        ⟨extract_about soup, by simp [scrape_profile, h], extract_about_shape soup⟩,
        by simp [scrape_profile, h], by simp [scrape_profile, h],
        by simp [scrape_profile, h], by simp [scrape_profile, h]⟩
    · intro hes
      have h1 := hes.1
      have h0 : (scrape_profile env url).error = none := by simp [scrape_profile, h]
      rw [h0] at h1
      simp at h1
  | error e =>
    right
    constructor
    · exact ⟨by simp [scrape_profile, h], by simp [scrape_profile, h],
        by simp [scrape_profile, h], by simp [scrape_profile, h],
        by simp [scrape_profile, h], by simp [scrape_profile, h],
        by simp [scrape_profile, h], by simp [scrape_profile, h]⟩
    · intro soup hs
      have h8 := hs.2.2.2.2.2.2.2
      have h0 : (scrape_profile env url).error = some e := by simp [scrape_profile, h]
      rw [h0] at h8
      exact Option.noConfusion h8

/-- The original claim's core-field clause, in the spec's words: the value
is extracted text or the sentinel "unknown". -/
def extractedOrUnknown (v : String) (soup : List Dom) : Prop :=
  v = "unknown" ∨ ∃ d ∈ nodesList soup, v = strStrip d.getText

def coreFieldOkSpec (v : Option String) (soup : List Dom) : Prop :=
  ∃ s, v = some s ∧ extractedOrUnknown s soup

/-- Success shape exactly as the claim words it, with the "unknown"
sentinel. -/
def successShapeSpec (r : ProfileRecord) (soup : List Dom) : Prop :=
  coreFieldOkSpec r.name soup ∧ coreFieldOkSpec r.headline soup ∧
  coreFieldOkSpec r.location soup ∧ coreFieldOkSpec r.about soup ∧
  r.experience.isSome ∧ r.education.isSome ∧ r.skills.isSome ∧ r.error = none

def envEmptyPage : String → Except String (List Dom) := fun _ => Except.ok []

/-- Counterexample to claim C3 as stated: on a page with no matching
nodes, the success record's core fields hold "N/A", which is neither
extracted text nor the claimed "unknown" sentinel, and `error` is not set
either — so the record fits neither of the claim's two shapes. -/
theorem profile_record_unknown_sentinel_cex :
    ¬ ((∃ soup, envEmptyPage "u" = Except.ok soup ∧
        successShapeSpec (scrape_profile envEmptyPage "u") soup) ∨
      errorShape (scrape_profile envEmptyPage "u")) := by
  intro hc
  rcases hc with ⟨soup, hok, hs⟩ | herr
  · have h2 : (Except.ok [] : Except String (List Dom)) = Except.ok soup := hok
    have hsoup : soup = [] := by
      injection h2 with h3
      exact h3.symm
    subst hsoup
    obtain ⟨s, hname, hval⟩ := hs.1
    have hna : (scrape_profile envEmptyPage "u").name = some "N/A" := rfl
    rw [hna] at hname
    injection hname with h4
    rcases hval with h5 | ⟨d, hd, _⟩
    · rw [← h4] at h5
      exact absurd h5 (by decide)
    · rw [nodesList] at hd
      cases hd
  · have h0 : (scrape_profile envEmptyPage "u").error = none := rfl
    have h1 := herr.1
    rw [h0] at h1
    simp at h1

/-- The scenario snapshot: one name node reading "Jane Doe", no headline
node. -/
def janeSoup : List Dom := [.elem "h1" ["text-heading-xlarge"] none "Jane Doe" []]

/-- Claim C5 (amended: the no-match sentinel is "N/A", not "unknown"):
every core-field extractor — name, headline, location and about — returns
the stripped text of the first selector match, trying its selector
strategies in order (name: the "text-heading-xlarge" h1 then the
"pv-text-details__left-panel" h1; about: the "pv-about" div then the
"inline-show-more-text" div inside it), and returns "N/A" when no
selector matches; in the scenario snapshot with a name node reading
"Jane Doe" and no headline node, the extracted name is "Jane Doe" and the
extracted headline is "N/A". -/
theorem core_field_first_match_or_na :
    (∀ (soup : List Dom) (e : Dom), docFind isNameSel1 soup = some e →
      extract_name soup = strStrip e.getText) ∧
    (∀ (soup : List Dom) (e : Dom), docFind isNameSel1 soup = none →
      docFind isNameSel2 soup = some e → extract_name soup = strStrip e.getText) ∧
    (∀ soup : List Dom, docFind isNameSel1 soup = none → docFind isNameSel2 soup = none →
      extract_name soup = "N/A") ∧
    (∀ (soup : List Dom) (e : Dom), docFind isHeadlineSel soup = some e →
      extract_headline soup = strStrip e.getText) ∧
    (∀ soup : List Dom, docFind isHeadlineSel soup = none →
      extract_headline soup = "N/A") ∧
    (∀ (soup : List Dom) (e : Dom), docFind isLocationSel soup = some e →
      extract_location soup = strStrip e.getText) ∧
    (∀ soup : List Dom, docFind isLocationSel soup = none →
      extract_location soup = "N/A") ∧
    (∀ (soup : List Dom) (sec e : Dom), docFind isAboutSectionSel soup = some sec →
      Dom.findIn isAboutTextSel sec = some e → extract_about soup = strStrip e.getText) ∧
    (∀ (soup : List Dom) (sec : Dom), docFind isAboutSectionSel soup = some sec →
      Dom.findIn isAboutTextSel sec = none → extract_about soup = "N/A") ∧
    (∀ soup : List Dom, docFind isAboutSectionSel soup = none →
      extract_about soup = "N/A") ∧
    extract_name janeSoup = "Jane Doe" ∧ extract_headline janeSoup = "N/A" := by
  refine ⟨?_, ?_, ?_, ?_, ?_, ?_, ?_, ?_, ?_, ?_, by decide, by decide⟩
  · intro soup e h
    simp [extract_name, h]
  · intro soup e h1 h2
    simp [extract_name, h1, h2]
  · intro soup h1 h2
    simp [extract_name, h1, h2]
  · intro soup e h
    simp [extract_headline, h]
  · intro soup h
    simp [extract_headline, h]
  · intro soup e h
    simp [extract_location, h]
  · intro soup h
    simp [extract_location, h]
  · intro soup sec e h1 h2
    simp [extract_about, h1, h2]
  · intro soup sec h1 h2
    simp [extract_about, h1, h2]
  · intro soup h
    simp [extract_about, h]

theorem core_field_first_match_or_na_witness :
    extract_name janeSoup
      = strStrip (Dom.elem "h1" ["text-heading-xlarge"] none "Jane Doe" []).getText ∧
    extract_headline janeSoup = "N/A" ∧
    extract_location janeSoup = "N/A" ∧
    extract_about janeSoup = "N/A" :=
  ⟨core_field_first_match_or_na.1 janeSoup
      (Dom.elem "h1" ["text-heading-xlarge"] none "Jane Doe" []) rfl,
   core_field_first_match_or_na.2.2.2.2.1 janeSoup rfl,
   core_field_first_match_or_na.2.2.2.2.2.2.1 janeSoup rfl,
   core_field_first_match_or_na.2.2.2.2.2.2.2.2.2.1 janeSoup rfl⟩

/-- Counterexample to claim C5 as stated: on the scenario snapshot the
record's headline is "N/A", not the claimed "unknown". -/
theorem headline_unknown_sentinel_cex :
    extract_name janeSoup = "Jane Doe" ∧ extract_headline janeSoup = "N/A" ∧
    extract_headline janeSoup ≠ "unknown" :=
  ⟨by decide, by decide, by decide⟩

/-- Counterexample to claim C1 as stated: on the empty URL list the
summary print of `scrape_multiple_profiles` evaluates
`successful / len(profile_urls)` with `len(profile_urls) = 0`, raising
ZeroDivisionError, so the call returns no batch result at all — there is
no batch whose length could equal the input length. -/
theorem batch_empty_input_raises_cex :
    scrape_multiple_profiles_full envEmptyPage [] = none := rfl

theorem batch_result_one_record_per_url_witness :
    (["u1"] : List String) ≠ [] ∧
    ∃ b, scrape_multiple_profiles_full envEmptyPage ["u1"] = some b ∧
      b.profiles = (["u1"] : List String).map (scrape_profile envEmptyPage) ∧
      b.profiles.length = (["u1"] : List String).length ∧
      ∀ i : Nat, (b.profiles[i]?).map ProfileRecord.url = (["u1"] : List String)[i]? :=
  ⟨by decide, batch_result_one_record_per_url envEmptyPage ["u1"] (by decide)⟩
